import Mathlib

/-!
Shallow embedding of `fhirclient/auth.py` (classes `FHIRAuth` and
`FHIROAuth2Auth`) together with the pieces of Python's `urllib.parse`
that the code calls (`urlsplit`, `urlunsplit`, `parse_qsl`, `parse_qs`,
`urlencode`).

Modelling conventions:
* Python strings are `String`; a value that may be Python `None` is an
  `Option String`.
* Python dictionaries are association lists with unique keys and
  insertion order (`List (String × α)`); `pyLookup` is `dict.get`,
  `eraseKey` is `del d[k]`, `pyDictInsert` is `d[k] = v`.
* Exceptions are modelled with `Except`; because Python attribute
  assignments performed before a `raise` survive the exception, every
  stateful method returns the post-mutation object state next to the
  `Except` result.
* The external server collaborator is modelled by an oracle response
  mapping (the value `post_as_form` would return) passed in as an
  argument, plus a trace of collaborator invocations (`List Event`).
* The nondeterministic nonce `str(uuid.uuid4())[:8]` is an explicit
  `fresh` argument.
-/

instance {ε α : Type} [DecidableEq ε] [DecidableEq α] : DecidableEq (Except ε α) :=
  fun a b =>
    match a, b with
    | .error e, .error f =>
      if h : e = f then .isTrue (congrArg Except.error h)
      else .isFalse (fun hh => h (Except.error.inj hh))
    | .ok x, .ok y =>
      if h : x = y then .isTrue (congrArg Except.ok h)
      else .isFalse (fun hh => h (Except.ok.inj hh))
    | .error _, .ok _ => .isFalse (fun hh => Except.noConfusion hh)
    | .ok _, .error _ => .isFalse (fun hh => Except.noConfusion hh)

/-- Python truthiness of an optional string: `None` and `""` are falsy. -/
def pyTruthy : Option String → Bool
  | none => false
  | some v => v != ""

/-- `new or old` for optional strings, as used by `from_state`
(`state.get(k) or current`): a falsy (`None` or empty) new value keeps
the old one. -/
def pickOr (new old : Option String) : Option String :=
  match new with
  | some v => if v = "" then old else some v
  | none => old

/-- An optional string is Python-falsy: absent or the empty string. -/
def pyFalsy (v : Option String) : Prop := v = none ∨ v = some ""

instance (v : Option String) : Decidable (pyFalsy v) := by
  unfold pyFalsy; infer_instance

/-- `dict.get k`: first binding of `k` in an association list. -/
def pyLookup {α : Type} : List (String × α) → String → Option α
  | [], _ => none
  | p :: rest, k => if p.1 = k then some p.2 else pyLookup rest k

/-- `del d[k]` (removes every binding of `k`; on the unique-key lists the
code builds this is exactly Python's deletion). -/
def eraseKey {α : Type} : List (String × α) → String → List (String × α)
  | [], _ => []
  | p :: rest, k => if p.1 = k then eraseKey rest k else p :: eraseKey rest k

/-- `d[k] = v` with Python-dict ordering: an existing key keeps its
position, a new key is appended. -/
def pyDictInsert {α : Type} (d : List (String × α)) (k : String) (v : α) :
    List (String × α) :=
  if d.any (fun p => p.1 == k) then
    d.map (fun p => if p.1 = k then (k, v) else p)
  else d ++ [(k, v)]

/-- `dict(pairs)`: later bindings overwrite earlier ones, first
occurrence fixes the position. -/
def pyDict {α : Type} (l : List (String × α)) : List (String × α) :=
  l.foldl (fun d p => pyDictInsert d p.1 p.2) []

/-- `d.update(new)`: Python dict update. -/
def pyUpdate {α : Type} (d new : List (String × α)) : List (String × α) :=
  new.foldl (fun acc p => pyDictInsert acc p.1 p.2) d

/-- A value appearing in a query-parameter dictionary: a string, Python
`None`, or a list of strings (as produced by `parse_qs`). -/
inductive PValue where
  | str (v : String)
  | null
  | seq (l : List String)
deriving Repr, DecidableEq

def PValue.ofOpt : Option String → PValue
  | Option.none => .null
  | Option.some v => .str v

/-- Exceptions raised by `auth.py` (and by the `urllib`/attribute
machinery it invokes). -/
inductive AuthError where
  /-- `assert state` with an empty (falsy) mapping in `FHIRAuth.from_state`. -/
  | assertionError
  /-- "No callback URL received". -/
  | noCallbackURL
  /-- `raise Exception(err)` from `extract_oauth_error`. -/
  | oauthError (msg : String)
  /-- "Invalid state, will not use this code. Have: {got}, want: {want}". -/
  | stateMismatch (got : Option String) (want : Option String)
  /-- "Did not receive a code". -/
  | missingCode
  /-- "I need a server to request an access token". -/
  | noServer
  /-- "No access token received". -/
  | noAccessToken
  /-- "Cannot produce reauthorize parameters without refresh token". -/
  | noRefreshToken
  /-- The `TypeError` out of `urlunsplit` when `self._authorize_uri` is
  `None`: `urlsplit(None)` coerces every component to `bytes`, and
  `urlunsplit` then raises "Cannot mix str and non-str arguments" on the
  freshly urlencoded `str` query. -/
  | typeError
  /-- `AttributeError`: method call on a `None` server. -/
  | attributeError
deriving Repr, DecidableEq

/-- Observable invocations of the external server collaborator. -/
inductive Event where
  | should_save_state
  | post_as_form (uri : Option String) (params : List (String × PValue))
deriving Repr, DecidableEq

/-! ## The fragment of `urllib.parse` used by `auth.py` -/

/-- Characters allowed in a URL scheme (CPython `scheme_chars`). -/
def schemeChar (c : Char) : Bool :=
  c.isAlpha || c.isDigit || c == '+' || c == '-' || c == '.'

/-- Characters never quoted by `urllib.parse.quote` (CPython
`_ALWAYS_SAFE`; `urlencode` passes `safe=''`). -/
def safeChar (c : Char) : Bool :=
  c.isAlphanum || c == '_' || c == '.' || c == '-' || c == '~'

/-- Uppercase hexadecimal digit. -/
def hexDigit (n : Nat) : Char :=
  if n < 10 then Char.ofNat (48 + n) else Char.ofNat (55 + n)

/-- Value of a hexadecimal digit character, upper- or lowercase. -/
def hexVal (c : Char) : Option Nat :=
  if '0' ≤ c ∧ c ≤ '9' then some (c.toNat - 48)
  else if 'A' ≤ c ∧ c ≤ 'F' then some (c.toNat - 55)
  else if 'a' ≤ c ∧ c ≤ 'f' then some (c.toNat - 87)
  else none

/-- UTF-8 bytes of a character (what `quote` percent-encodes). -/
def utf8Bytes (c : Char) : List Nat :=
  let n := c.toNat
  if n < 128 then [n]
  else if n < 2048 then [192 + n / 64, 128 + n % 64]
  else if n < 65536 then [224 + n / 4096, 128 + n / 64 % 64, 128 + n % 64]
  else [240 + n / 262144, 128 + n / 4096 % 64, 128 + n / 64 % 64, 128 + n % 64]

/-- Percent-encoding of one byte. -/
def pctByte (n : Nat) : List Char := ['%', hexDigit (n / 16), hexDigit (n % 16)]

/-- `urllib.parse.quote_plus` with `safe=''` on one character. -/
def quoteChar (c : Char) : List Char :=
  if safeChar c then [c]
  else if c = ' ' then ['+']
  else ((utf8Bytes c).map pctByte).flatten

/-- `urllib.parse.quote_plus(s, safe='')`. -/
def quote_plus (s : String) : String :=
  ((s.toList.map quoteChar).flatten).asString

/-- `urllib.parse.unquote_plus` on a character list: `+` becomes a
space, `%XX` decodes a byte (faithful to CPython for ASCII bytes; a
multi-byte UTF-8 sequence is decoded bytewise here). -/
def unquoteChars : List Char → List Char
  | [] => []
  | '+' :: rest => ' ' :: unquoteChars rest
  | '%' :: a :: b :: rest =>
    match hexVal a, hexVal b with
    | some hi, some lo => Char.ofNat (16 * hi + lo) :: unquoteChars rest
    | _, _ => '%' :: unquoteChars (a :: b :: rest)
  | c :: rest => c :: unquoteChars rest

/-- Split a character list at the first occurrence of `c`
(`s.split(c, 1)`), or `none` when `c` does not occur. -/
def splitAtFirst (c : Char) : List Char → Option (List Char × List Char)
  | [] => none
  | x :: xs =>
    if x = c then some ([], xs)
    else
      match splitAtFirst c xs with
      | some (a, b) => some (x :: a, b)
      | none => none

/-- `s.replace('+', ' ')` for the one-character pattern used by
`extract_oauth_error`. -/
def replacePlus (s : String) : String :=
  (s.toList.map (fun c => if c = '+' then ' ' else c)).asString

/-- Result of `urllib.parse.urlsplit`. -/
structure SplitResult where
  scheme : String
  netloc : String
  path : String
  query : String
  fragment : String
deriving Repr, DecidableEq

/-- `urllib.parse.urlsplit` (CPython's algorithm: scheme, then `//`
netloc, then fragment at the first `#`, then query at the first `?`). -/
def urlsplit (url : String) : SplitResult :=
  let l := url.toList
  let schemeSplit : List Char × List Char :=
    match splitAtFirst ':' l with
    | some (before, after) =>
      if before ≠ [] ∧ before.all schemeChar then (before.map Char.toLower, after)
      else ([], l)
    | none => ([], l)
  let rest := schemeSplit.2
  let netlocSplit : List Char × List Char :=
    match rest with
    | '/' :: '/' :: tail =>
      (tail.takeWhile (fun c => !(c == '/' || c == '?' || c == '#')),
       tail.dropWhile (fun c => !(c == '/' || c == '?' || c == '#')))
    | _ => ([], rest)
  let fragSplit : List Char × List Char :=
    match splitAtFirst '#' netlocSplit.2 with
    | some (a, b) => (a, b)
    | none => (netlocSplit.2, [])
  let qSplit : List Char × List Char :=
    match splitAtFirst '?' fragSplit.1 with
    | some (a, b) => (a, b)
    | none => (fragSplit.1, [])
  { scheme := schemeSplit.1.asString, netloc := netlocSplit.1.asString,
    path := qSplit.1.asString, query := qSplit.2.asString,
    fragment := fragSplit.2.asString }

/-- `url[:n]` (string prefix of length `n`). -/
def strTake (s : String) (n : Nat) : String := (s.toList.take n).asString

/-- `urllib.parse.urlunsplit`. -/
def urlunsplit (p : SplitResult) : String :=
  let url0 := p.path
  let url1 :=
    if p.netloc ≠ "" ∨ (url0 ≠ "" ∧ strTake url0 2 = "//") then
      "//" ++ p.netloc ++ (if url0 ≠ "" ∧ strTake url0 1 ≠ "/" then "/" ++ url0 else url0)
    else url0
  let url2 := if p.scheme ≠ "" then p.scheme ++ ":" ++ url1 else url1
  let url3 := if p.query ≠ "" then url2 ++ "?" ++ p.query else url2
  if p.fragment ≠ "" then url3 ++ "#" ++ p.fragment else url3

/-- `qs.split('&')` on a character list. -/
def splitOnAmp : List Char → List (List Char)
  | [] => [[]]
  | c :: rest =>
    match splitOnAmp rest with
    | [] => [[c]]
    | h :: t => if c = '&' then [] :: h :: t else (c :: h) :: t

/-- `urllib.parse.parse_qsl` with default arguments: split on `&`, drop
pieces without `=` and pairs with an empty value, unquote names and
values. -/
def parse_qsl (qs : String) : List (String × String) :=
  (splitOnAmp qs.toList).filterMap fun nv =>
    match splitAtFirst '=' nv with
    | none => none
    | some (n, v) =>
      if v = [] then none
      else some ((unquoteChars n).asString, (unquoteChars v).asString)

/-- One step of `parse_qs`'s dictionary building:
`parsed[name].append(value)` or `parsed[name] = [value]`. -/
def qsInsert (d : List (String × PValue)) (k v : String) : List (String × PValue) :=
  if d.any (fun p => p.1 == k) then
    d.map (fun p =>
      if p.1 = k then
        (k, match p.2 with
            | PValue.seq l => PValue.seq (l ++ [v])
            | x => x)
      else p)
  else d ++ [(k, PValue.seq [v])]

/-- `urllib.parse.parse_qs`: a dictionary mapping each name to the list
of its values. -/
def parse_qs (qs : String) : List (String × PValue) :=
  (parse_qsl qs).foldl (fun d p => qsInsert d p.1 p.2) []

/-- `urllib.parse.urlencode(query, doseq=True)`: a string value is
quoted, `None` becomes `str(None) = "None"`, a list contributes one
`k=v` pair per element. -/
def urlencode (q : List (String × PValue)) : String :=
  String.intercalate "&" (q.map (fun p =>
    match p.2 with
    | PValue.str v => [quote_plus p.1 ++ "=" ++ quote_plus v]
    | PValue.null => [quote_plus p.1 ++ "=" ++ quote_plus "None"]
    | PValue.seq l => l.map (fun v => quote_plus p.1 ++ "=" ++ quote_plus v))).flatten

/-! ## `FHIRAuth`: the no-op base strategy -/

/-- Base class state: the (asserted non-`None`) server reference and the
`app_id` client identifier. -/
structure FHIRAuth where
  has_server : Bool
  app_id : Option String
deriving Repr, DecidableEq

/-- Base `ready` property: always `True`. -/
def FHIRAuth.ready (_ : FHIRAuth) : Bool := true

/-- Base `can_sign_headers`: always `False`. -/
def FHIRAuth.can_sign_headers (_ : FHIRAuth) : Bool := false

/-! ## `FHIROAuth2Auth` -/

/-- Instance state of `FHIROAuth2Auth` (base-class fields included). -/
structure FHIROAuth2Auth where
  has_server : Bool
  app_id : Option String
  scope : Option String
  _registration_uri : Option String
  _authorize_uri : Option String
  _redirect_uri : Option String
  _token_uri : Option String
  auth_state : Option String
  access_token : Option String
  refresh_token : Option String
deriving Repr, DecidableEq

namespace FHIROAuth2Auth

/-- `__init__(server, state=None)` with a non-`None` server: every
optional field starts as `None`. -/
def init : FHIROAuth2Auth :=
  { has_server := true, app_id := none, scope := none,
    _registration_uri := none, _authorize_uri := none, _redirect_uri := none,
    _token_uri := none, auth_state := none, access_token := none,
    refresh_token := none }

/-- `ready` property: `True if self.access_token else False`
(Python truthiness, so an empty-string token is not ready). -/
def ready (s : FHIROAuth2Auth) : Bool := pyTruthy s.access_token

/-- `reset()`: clears `access_token` and `auth_state`, nothing else. -/
def reset (s : FHIROAuth2Auth) : FHIROAuth2Auth :=
  { s with access_token := none, auth_state := none }

/-- `can_sign_headers()`: `True if self.access_token is not None else False`. -/
def can_sign_headers (s : FHIROAuth2Auth) : Bool := s.access_token.isSome

/-- The dictionary literal built by `_authorize_params` after the
possible nonce mint. -/
def authParamsOf (s : FHIROAuth2Auth) : List (String × PValue) :=
  [("client_id", PValue.ofOpt s.app_id),
   ("response_type", PValue.str "code"),
   ("scope", PValue.ofOpt s.scope),
   ("state", PValue.ofOpt s.auth_state),
   ("redirect_uri", PValue.ofOpt s._redirect_uri)]

/-- `_authorize_params()`: if no nonce is pending, store the fresh one
and call `self.server.should_save_state()` (an `AttributeError` if the
server were `None`), then return the parameter dictionary. -/
def _authorize_params (fresh : String) (s : FHIROAuth2Auth) :
    Except AuthError (List (String × PValue)) × FHIROAuth2Auth × List Event :=
  match s.auth_state with
  | none =>
    let s' := { s with auth_state := some fresh }
    if s'.has_server then (.ok (authParamsOf s'), s', [.should_save_state])
    else (.error .attributeError, s', [])
  | some _ => (.ok (authParamsOf s), s, [])

/-- `authorize_uri` property: compute the auth params, split the
configured authorize endpoint, merge its existing query parameters under
the computed ones, and reassemble.  With `self._authorize_uri = None`
the `urlsplit`/`urlunsplit` pair raises a `TypeError` after the side
effects of `_authorize_params` have happened. -/
def authorize_uri (fresh : String) (s : FHIROAuth2Auth) :
    Except AuthError String × FHIROAuth2Auth × List Event :=
  match _authorize_params fresh s with
  | (.error e, s', evs) => (.error e, s', evs)
  | (.ok auth_params, s', evs) =>
    match s'._authorize_uri with
    | none => (.error .typeError, s', evs)
    | some base =>
      let parts := urlsplit base
      let finalParams :=
        if parts.query.length > 0 then pyUpdate (parse_qs parts.query) auth_params
        else auth_params
      (.ok (urlunsplit { parts with query := urlencode finalParams }), s', evs)

/-- `extract_oauth_error(args)`: prefer `error_description` (with `+`
replaced by spaces), else map the `error` code to a canned message. -/
def extract_oauth_error (args : List (String × String)) : Option String :=
  match pyLookup args "error_description" with
  | some desc => some (replacePlus desc)
  | none =>
    match pyLookup args "error" with
    | none => none
    | some code =>
      if code = "invalid_request" then
        some "The request is missing a required parameter, includes an invalid parameter value, includes a parameter more than once, or is otherwise malformed."
      else if code = "unauthorized_client" then
        some "The client is not authorized to request an access token using this method."
      else if code = "access_denied" then
        some "The resource owner or authorization server denied the request."
      else if code = "unsupported_response_type" then
        some "The authorization server does not support obtaining an access token using this method."
      else if code = "invalid_scope" then
        some "The requested scope is invalid, unknown, or malformed."
      else if code = "server_error" then
        some "The authorization server encountered an unexpected condition that prevented it from fulfilling the request."
      else if code = "temporarily_unavailable" then
        some "The authorization server is currently unable to handle the request due to a temporary overloading or maintenance of the server."
      else some ("Authorization error: " ++ code ++ ".")

/-- `_code_exchange_params(code)`. -/
def _code_exchange_params (code : String) (s : FHIROAuth2Auth) :
    List (String × PValue) :=
  [("client_id", PValue.ofOpt s.app_id),
   ("code", PValue.str code),
   ("grant_type", PValue.str "authorization_code"),
   ("redirect_uri", PValue.ofOpt s._redirect_uri),
   ("state", PValue.ofOpt s.auth_state)]

/-- `_request_access_token(params)`.  `resp` is the oracle for what
`self.server.post_as_form(self._token_uri, params)` returns.  Mirrors
the source line by line: `self.access_token` is assigned from the
response *before* the `None` check (so a missing token clears it and
then raises), `expires_in` is deleted when present, and
`self.refresh_token` is assigned unconditionally from the remaining
response (deleting the key when it was present). -/
def _request_access_token (resp : List (String × String)) (s : FHIROAuth2Auth)
    (params : List (String × PValue)) :
    Except AuthError (List (String × String)) × FHIROAuth2Auth × List Event :=
  if s.has_server then
    let ev := Event.post_as_form s._token_uri params
    match pyLookup resp "access_token" with
    | none => (.error .noAccessToken, { s with access_token := none }, [ev])
    | some tok =>
      let r1 := eraseKey resp "access_token"
      let r2 :=
        match pyLookup r1 "expires_in" with
        | some _ => eraseKey r1 "expires_in"
        | none => r1
      match pyLookup r2 "refresh_token" with
      | none =>
        (.ok r2, { s with access_token := some tok, refresh_token := none }, [ev])
      | some rt =>
        (.ok (eraseKey r2 "refresh_token"),
         { s with access_token := some tok, refresh_token := some rt }, [ev])
  else (.error .noServer, s, [])

/-- The parsed-and-dictified query of a callback URL
(`dict(urlparse.parse_qsl(urlparse.urlsplit(url)[3]))`). -/
def callbackArgs (u : String) : List (String × String) :=
  pyDict (parse_qsl (urlsplit u).query)

/-- `handle_callback(url)`: `None` check, parse, OAuth error check,
anti-CSRF state check, code check, then the code-for-token exchange. -/
def handle_callback (resp : List (String × String)) (s : FHIROAuth2Auth)
    (url : Option String) :
    Except AuthError (List (String × String)) × FHIROAuth2Auth × List Event :=
  match url with
  | none => (.error .noCallbackURL, s, [])
  | some u =>
    let args := callbackArgs u
    match extract_oauth_error args with
    | some msg => (.error (.oauthError msg), s, [])
    | none =>
      let stt := pyLookup args "state"
      if stt = none ∨ s.auth_state ≠ stt then
        (.error (.stateMismatch stt s.auth_state), s, [])
      else
        match pyLookup args "code" with
        | none => (.error .missingCode, s, [])
        | some code => _request_access_token resp s (_code_exchange_params code s)

/-- `_reauthorize_params()`. -/
def _reauthorize_params (s : FHIROAuth2Auth) :
    Except AuthError (List (String × PValue)) :=
  match s.refresh_token with
  | none => .error .noRefreshToken
  | some rt =>
    .ok [("client_id", PValue.ofOpt s.app_id),
         ("grant_type", PValue.str "refresh_token"),
         ("refresh_token", PValue.str rt)]

/-- `reauthorize()`: soft `None` when no refresh token is held,
otherwise the shared token exchange. -/
def reauthorize (resp : List (String × String)) (s : FHIROAuth2Auth) :
    Except AuthError (Option (List (String × String))) × FHIROAuth2Auth × List Event :=
  match s.refresh_token with
  | none => (.ok none, s, [])
  | some _ =>
    match _reauthorize_params s with
    | .error e => (.error e, s, [])
    | .ok ps =>
      match _request_access_token resp s ps with
      | (.ok l, s', evs) => (.ok (some l), s', evs)
      | (.error e, s', evs) => (.error e, s', evs)

/-- A persisted state mapping: keys paired with possibly-`None` values;
an absent key is simply not in the list. -/
abbrev StateMap := List (String × Option String)

/-- `state.get(k)` on a persisted mapping: absent keys and `None`
values both read as `None`. -/
def pyGet (st : StateMap) (k : String) : Option String :=
  match pyLookup st k with
  | some v => v
  | none => none

/-- The `state` property: configuration keys are always exported (with
their possibly-`None` values); `auth_state`, `access_token` and
`refresh_token` only when not `None`. -/
def state (s : FHIROAuth2Auth) : StateMap :=
  [("app_id", s.app_id), ("scope", s.scope),
   ("registration_uri", s._registration_uri),
   ("authorize_uri", s._authorize_uri),
   ("redirect_uri", s._redirect_uri),
   ("token_uri", s._token_uri)] ++
  (match s.auth_state with
   | some v => [("auth_state", some v)]
   | none => []) ++
  (match s.access_token with
   | some v => [("access_token", some v)]
   | none => []) ++
  (match s.refresh_token with
   | some v => [("refresh_token", some v)]
   | none => [])

/-- `from_state(state)`: the base class `assert state` rejects an empty
(falsy) mapping; otherwise every field is updated with
`state.get(k) or current`. -/
def from_state (s : FHIROAuth2Auth) (st : StateMap) :
    Except AuthError FHIROAuth2Auth :=
  if st.isEmpty then .error .assertionError
  else .ok { s with
    app_id := pickOr (pyGet st "app_id") s.app_id,
    scope := pickOr (pyGet st "scope") s.scope,
    _registration_uri := pickOr (pyGet st "registration_uri") s._registration_uri,
    _authorize_uri := pickOr (pyGet st "authorize_uri") s._authorize_uri,
    _redirect_uri := pickOr (pyGet st "redirect_uri") s._redirect_uri,
    _token_uri := pickOr (pyGet st "token_uri") s._token_uri,
    auth_state := pickOr (pyGet st "auth_state") s.auth_state,
    access_token := pickOr (pyGet st "access_token") s.access_token,
    refresh_token := pickOr (pyGet st "refresh_token") s.refresh_token }

end FHIROAuth2Auth

/-! ## Helper lemmas -/

theorem pickOr_falsy {v old : Option String} (h : pyFalsy v) : pickOr v old = old := by
  rcases h with h | h <;> subst h <;> simp [pickOr]

theorem pickOr_none {v : Option String} (h : v ≠ some "") : pickOr v none = v := by
  cases v with
  | none => rfl
  | some w =>
    have hw : ¬ w = "" := fun hh => h (by rw [hh])
    simp [pickOr, hw]

theorem eraseKey_of_pyLookup_none {α : Type} {l : List (String × α)} {k : String}
    (h : pyLookup l k = none) : eraseKey l k = l := by
  induction l with
  | nil => rfl
  | cons p rest ih =>
    by_cases hk : p.1 = k
    · simp [pyLookup, hk] at h
    · simp only [pyLookup, if_neg hk] at h
      simp [eraseKey, hk, ih h]

theorem pyLookup_eraseKey {α : Type} (l : List (String × α)) (k k' : String)
    (hne : k ≠ k') : pyLookup (eraseKey l k') k = pyLookup l k := by
  induction l with
  | nil => rfl
  | cons p rest ih =>
    by_cases h1 : p.1 = k'
    · have h2 : ¬ p.1 = k := by
        rw [h1]; exact fun hh => hne hh.symm
      simp [eraseKey, h1, pyLookup, h2, ih, Ne.symm hne]
    · by_cases h2 : p.1 = k <;> simp [eraseKey, h1, pyLookup, h2, ih, hne]

/-- The entries of a token response that survive the consumption of
`access_token`, `expires_in` and `refresh_token` (the launch context). -/
def launchFilter (l : List (String × String)) : List (String × String) :=
  l.filter (fun p => !(p.1 == "access_token" || p.1 == "expires_in" || p.1 == "refresh_token"))

theorem erase3_eq_launchFilter (l : List (String × String)) :
    eraseKey (eraseKey (eraseKey l "access_token") "expires_in") "refresh_token" =
      launchFilter l := by
  induction l with
  | nil => rfl
  | cons p rest ih =>
    by_cases h1 : p.1 = "access_token"
    · simpa [eraseKey, launchFilter, h1] using ih
    · by_cases h2 : p.1 = "expires_in"
      · simpa [eraseKey, launchFilter, h1, h2] using ih
      · by_cases h3 : p.1 = "refresh_token"
        · simpa [eraseKey, launchFilter, h1, h2, h3] using ih
        · simpa [eraseKey, launchFilter, h1, h2, h3] using ih

/-! ## Claim theorems -/

open FHIROAuth2Auth

/-- C9: `reset()` sets `access_token` and `auth_state` to null (so
`ready` becomes false) and changes nothing else: `refresh_token`,
`scope` and the endpoint configuration keep their values, also as
observed through the exported state mapping. -/
theorem reset_clears_only_token_and_nonce (s : FHIROAuth2Auth) :
    s.reset = { s with access_token := none, auth_state := none } ∧
    s.reset.ready = false ∧
    s.reset.refresh_token = s.refresh_token ∧
    s.reset.scope = s.scope ∧
    s.reset._registration_uri = s._registration_uri ∧
    s.reset._authorize_uri = s._authorize_uri ∧
    s.reset._redirect_uri = s._redirect_uri ∧
    s.reset._token_uri = s._token_uri ∧
    pyGet s.reset.state "refresh_token" = pyGet s.state "refresh_token" ∧
    pyGet s.reset.state "scope" = pyGet s.state "scope" ∧
    pyGet s.reset.state "registration_uri" = pyGet s.state "registration_uri" ∧
    pyGet s.reset.state "authorize_uri" = pyGet s.state "authorize_uri" ∧
    pyGet s.reset.state "redirect_uri" = pyGet s.state "redirect_uri" ∧
    pyGet s.reset.state "token_uri" = pyGet s.state "token_uri" ∧
    pyGet s.reset.state "access_token" = none ∧
    pyGet s.reset.state "auth_state" = none := by
  obtain ⟨hs, app, sc, reg, au, red, tok, ast, acc, ref⟩ := s
  cases ast <;> cases acc <;> cases ref <;>
    simp [reset, state, pyGet, pyLookup, ready, pyTruthy]

/-- C5 counterexample: the base ("none") strategy is a strategy instance
on which `can_sign_headers()` (always false) differs from `ready`
(always true), refuting the claimed equivalence for every strategy. -/
theorem ready_can_sign_cex :
    ({ has_server := true, app_id := none } : FHIRAuth).can_sign_headers ≠
      ({ has_server := true, app_id := none } : FHIRAuth).ready := by
  decide

/-- C5 amended: the base strategy has `ready` always true and
`can_sign_headers` always false; for the OAuth2 strategy
`can_sign_headers` is true exactly when `access_token` is non-null,
`ready` is Python truthiness of `access_token`, and the two coincide
whenever `access_token` is not the empty string. -/
theorem ready_can_sign_amended :
    (∀ b : FHIRAuth, b.ready = true ∧ b.can_sign_headers = false) ∧
    (∀ s : FHIROAuth2Auth,
      s.can_sign_headers = s.access_token.isSome ∧
      s.ready = pyTruthy s.access_token ∧
      (s.access_token ≠ some "" → s.ready = s.can_sign_headers)) := by
  refine ⟨fun b => ⟨rfl, rfl⟩, fun s => ⟨rfl, rfl, ?_⟩⟩
  cases h : s.access_token with
  | none => intro _; simp [ready, can_sign_headers, pyTruthy, h]
  | some t =>
    intro hne
    have ht : ¬ t = "" := by
      intro hh
      exact hne (by rw [hh])
    simp [ready, can_sign_headers, pyTruthy, h, ht]

/-- C5 witness: on a concrete authorized OAuth2 strategy with a
nonempty token, `ready` and `can_sign_headers` agree. -/
theorem ready_can_sign_witness :
    ({ init with access_token := some "tok" } : FHIROAuth2Auth).access_token ≠ some "" ∧
    ({ init with access_token := some "tok" } : FHIROAuth2Auth).ready =
      ({ init with access_token := some "tok" } : FHIROAuth2Auth).can_sign_headers :=
  ⟨by decide,
   (ready_can_sign_amended.2 { init with access_token := some "tok" }).2.2 (by decide)⟩

/-- C2 amended: a token exchange whose response lacks an `access_token`
key raises the no-access-token error and leaves `refresh_token` (and
every other field) untouched, but the stored `access_token` has already
been overwritten with null when the error is raised. -/
theorem request_access_token_no_token (s : FHIROAuth2Auth)
    (resp : List (String × String)) (params : List (String × PValue))
    (hsrv : s.has_server = true)
    (h : pyLookup resp "access_token" = none) :
    _request_access_token resp s params =
      (.error .noAccessToken, { s with access_token := none },
       [.post_as_form s._token_uri params]) := by
  simp [_request_access_token, hsrv, h]

/-- C2 counterexample: with a prior access token held, a failing
exchange (response without `access_token`) raises the no-access-token
error but does not leave the stored `access_token` untouched: it is
cleared. -/
theorem request_access_token_no_token_cex :
    (_request_access_token [("foo", "bar")]
       { init with access_token := some "tokA", refresh_token := some "refA" }
       []).1 = .error .noAccessToken ∧
    (_request_access_token [("foo", "bar")]
       { init with access_token := some "tokA", refresh_token := some "refA" }
       []).2.1.access_token ≠
      ({ init with access_token := some "tokA", refresh_token := some "refA" }
        : FHIROAuth2Auth).access_token := by
  decide

/-- C2 witness: the amended theorem at a concrete strategy and
response. -/
theorem request_access_token_no_token_witness :
    pyLookup [("foo", "bar")] "access_token" = none ∧
    _request_access_token [("foo", "bar")]
        { init with refresh_token := some "refA" } [] =
      (.error .noAccessToken,
       { init with refresh_token := some "refA", access_token := none },
       [.post_as_form none []]) :=
  ⟨by decide,
   request_access_token_no_token { init with refresh_token := some "refA" }
     [("foo", "bar")] [] (by decide) (by decide)⟩

/-- C4 amended: a successful exchange whose response has no
`refresh_token` key sets the stored `refresh_token` to null — the
assignment is unconditional, so a previously held refresh token is
cleared rather than preserved. -/
theorem refresh_token_cleared (s : FHIROAuth2Auth)
    (resp : List (String × String)) (params : List (String × PValue)) (v : String)
    (hsrv : s.has_server = true)
    (h : pyLookup resp "access_token" = some v)
    (h2 : pyLookup resp "refresh_token" = none) :
    (_request_access_token resp s params).2.1.refresh_token = none := by
  have e1 : pyLookup (eraseKey resp "access_token") "refresh_token" = none := by
    rw [pyLookup_eraseKey _ _ _ (by decide)]; exact h2
  simp only [_request_access_token, hsrv, if_true, h]
  cases hE : pyLookup (eraseKey resp "access_token") "expires_in" with
  | none => simp [hE, e1]
  | some x =>
    have e2 : pyLookup (eraseKey (eraseKey resp "access_token") "expires_in")
        "refresh_token" = none := by
      rw [pyLookup_eraseKey _ _ _ (by decide)]; exact e1
    simp [hE, e2]

/-- C4 counterexample: a strategy holding `refresh_token = "r0"`
exchanges a code; the response carries an `access_token` but no
`refresh_token`, and the stored `refresh_token` ends up null instead of
keeping its prior value. -/
theorem refresh_token_cleared_cex :
    (_request_access_token [("access_token", "t")]
       { init with refresh_token := some "r0" } []).1 =
      .ok [] ∧
    (_request_access_token [("access_token", "t")]
       { init with refresh_token := some "r0" } []).2.1.refresh_token ≠
      ({ init with refresh_token := some "r0" } : FHIROAuth2Auth).refresh_token := by
  decide

/-- C4 witness: the amended theorem at a concrete strategy and
response. -/
theorem refresh_token_cleared_witness :
    pyLookup [("access_token", "t")] "access_token" = some "t" ∧
    pyLookup [("access_token", "t")] "refresh_token" = none ∧
    (_request_access_token [("access_token", "t")]
       { init with refresh_token := some "r0" } []).2.1.refresh_token = none :=
  ⟨by decide, by decide,
   refresh_token_cleared { init with refresh_token := some "r0" }
     [("access_token", "t")] [] "t" (by decide) (by decide) (by decide)⟩

/-- Shared computation: a token exchange whose response carries an
`access_token` succeeds, returns the response minus the three consumed
keys, stores the token, and assigns `refresh_token` from the response
(null when absent). -/
theorem _request_access_token_ok (s : FHIROAuth2Auth)
    (resp : List (String × String)) (params : List (String × PValue)) (v : String)
    (hsrv : s.has_server = true) (h : pyLookup resp "access_token" = some v) :
    _request_access_token resp s params =
      (.ok (launchFilter resp),
       { s with access_token := some v,
                refresh_token := pyLookup resp "refresh_token" },
       [.post_as_form s._token_uri params]) := by
  have hRa : pyLookup (eraseKey resp "access_token") "refresh_token" =
      pyLookup resp "refresh_token" :=
    pyLookup_eraseKey _ _ _ (by decide)
  simp only [_request_access_token, hsrv, if_true, h]
  cases hE : pyLookup (eraseKey resp "access_token") "expires_in" with
  | none =>
    have r2eq := eraseKey_of_pyLookup_none hE
    cases hR : pyLookup (eraseKey resp "access_token") "refresh_token" with
    | none =>
      have r3eq := eraseKey_of_pyLookup_none hR
      have lf : launchFilter resp = eraseKey resp "access_token" := by
        rw [← erase3_eq_launchFilter, r2eq, r3eq]
      rw [hR] at hRa
      simp [lf, ← hRa]
    | some rt =>
      have lf : launchFilter resp =
          eraseKey (eraseKey resp "access_token") "refresh_token" := by
        rw [← erase3_eq_launchFilter, r2eq]
      rw [hR] at hRa
      simp [lf, ← hRa]
  | some x =>
    have hR2 : pyLookup (eraseKey (eraseKey resp "access_token") "expires_in")
        "refresh_token" = pyLookup resp "refresh_token" := by
      rw [pyLookup_eraseKey _ _ _ (by decide)]; exact hRa
    cases hR : pyLookup (eraseKey (eraseKey resp "access_token") "expires_in")
        "refresh_token" with
    | none =>
      have r3eq := eraseKey_of_pyLookup_none hR
      have lf : launchFilter resp =
          eraseKey (eraseKey resp "access_token") "expires_in" := by
        rw [← erase3_eq_launchFilter, r3eq]
      rw [hR] at hR2
      simp [lf, ← hR2]
    | some rt =>
      have lf := (erase3_eq_launchFilter resp).symm
      rw [hR] at hR2
      simp [lf, ← hR2]

/-- C3 amended: an exchange whose response carries `access_token` stores
that value (so `can_sign_headers` becomes true, and `ready` becomes true
exactly when the value is nonempty), consumes `access_token`,
`expires_in` and `refresh_token` from the mapping, returns the remaining
entries as launch context, sets `refresh_token` from the response, and
leaves the pending `auth_state` nonce untouched. -/
theorem request_access_token_stores_token (s : FHIROAuth2Auth)
    (resp : List (String × String)) (params : List (String × PValue)) (v : String)
    (hsrv : s.has_server = true) (h : pyLookup resp "access_token" = some v) :
    (_request_access_token resp s params).1 = .ok (launchFilter resp) ∧
    (_request_access_token resp s params).2.1.access_token = some v ∧
    (_request_access_token resp s params).2.1.can_sign_headers = true ∧
    (_request_access_token resp s params).2.1.ready = (v != "") ∧
    (_request_access_token resp s params).2.1.refresh_token =
      pyLookup resp "refresh_token" ∧
    (_request_access_token resp s params).2.1.auth_state = s.auth_state ∧
    (_request_access_token resp s params).2.2 =
      [.post_as_form s._token_uri params] := by
  rw [_request_access_token_ok s resp params v hsrv h]
  exact ⟨rfl, rfl, rfl, rfl, rfl, rfl, rfl⟩

/-- C3 counterexample to "so ready becomes true": a response whose
`access_token` value is the empty string makes the exchange succeed and
stores the empty token, yet `ready` stays false. -/
theorem request_access_token_stores_token_cex :
    (_request_access_token [("access_token", "")] init []).1 = .ok [] ∧
    (_request_access_token [("access_token", "")] init []).2.1.access_token =
      some "" ∧
    (_request_access_token [("access_token", "")] init []).2.1.ready = false := by
  decide

/-- C3 witness: the claim's example response
`{access_token: t1, refresh_token: r1, expires_in: 3600}` yields stored
tokens `t1`/`r1` and an empty launch context. -/
theorem request_access_token_stores_token_witness :
    pyLookup [("access_token", "t1"), ("refresh_token", "r1"),
      ("expires_in", "3600")] "access_token" = some "t1" ∧
    pyLookup [("access_token", "t1"), ("refresh_token", "r1"),
      ("expires_in", "3600")] "refresh_token" = some "r1" ∧
    launchFilter [("access_token", "t1"), ("refresh_token", "r1"),
      ("expires_in", "3600")] = [] ∧
    ((_request_access_token [("access_token", "t1"), ("refresh_token", "r1"),
        ("expires_in", "3600")] init []).1 =
      .ok (launchFilter [("access_token", "t1"), ("refresh_token", "r1"),
        ("expires_in", "3600")]) ∧
     (_request_access_token [("access_token", "t1"), ("refresh_token", "r1"),
        ("expires_in", "3600")] init []).2.1.access_token = some "t1" ∧
     (_request_access_token [("access_token", "t1"), ("refresh_token", "r1"),
        ("expires_in", "3600")] init []).2.1.can_sign_headers = true ∧
     (_request_access_token [("access_token", "t1"), ("refresh_token", "r1"),
        ("expires_in", "3600")] init []).2.1.ready = ("t1" != "") ∧
     (_request_access_token [("access_token", "t1"), ("refresh_token", "r1"),
        ("expires_in", "3600")] init []).2.1.refresh_token =
       pyLookup [("access_token", "t1"), ("refresh_token", "r1"),
         ("expires_in", "3600")] "refresh_token" ∧
     (_request_access_token [("access_token", "t1"), ("refresh_token", "r1"),
        ("expires_in", "3600")] init []).2.1.auth_state = init.auth_state ∧
     (_request_access_token [("access_token", "t1"), ("refresh_token", "r1"),
        ("expires_in", "3600")] init []).2.2 =
       [.post_as_form none []]) :=
  ⟨by decide, by decide, by decide,
   request_access_token_stores_token init
     [("access_token", "t1"), ("refresh_token", "r1"), ("expires_in", "3600")]
     [] "t1" (by decide) (by decide)⟩

/-- C1: a callback URL whose parsed query carries no OAuth error, and
whose `state` parameter is absent or different from the pending
`auth_state` nonce, makes `handle_callback` fail with the state-mismatch
error, leave the whole strategy state (in particular `access_token`)
unchanged, and never invoke the collaborator's `post_as_form`. -/
theorem handle_callback_state_mismatch (s : FHIROAuth2Auth)
    (resp : List (String × String)) (u : String)
    (hne : extract_oauth_error (callbackArgs u) = none)
    (hst : ∀ v, pyLookup (callbackArgs u) "state" = some v →
      s.auth_state ≠ some v) :
    handle_callback resp s (some u) =
      (.error (.stateMismatch (pyLookup (callbackArgs u) "state") s.auth_state),
       s, []) := by
  simp only [handle_callback, hne]
  cases hS : pyLookup (callbackArgs u) "state" with
  | none => simp
  | some v =>
    have hv : s.auth_state ≠ some v := hst v hS
    simp [hv]

/-- C1 witness: a pending nonce `good` and a callback carrying
`state=evil` produce the state-mismatch error with no state change and
no collaborator call. -/
theorem handle_callback_state_mismatch_witness :
    extract_oauth_error
      (callbackArgs "https://app.example.com/cb?code=c1&state=evil") = none ∧
    pyLookup (callbackArgs "https://app.example.com/cb?code=c1&state=evil")
      "state" = some "evil" ∧
    handle_callback [] { init with auth_state := some "good" }
        (some "https://app.example.com/cb?code=c1&state=evil") =
      (.error (.stateMismatch
        (pyLookup (callbackArgs "https://app.example.com/cb?code=c1&state=evil")
          "state")
        ({ init with auth_state := some "good" } : FHIROAuth2Auth).auth_state),
       { init with auth_state := some "good" }, []) :=
  ⟨by decide, by decide,
   handle_callback_state_mismatch { init with auth_state := some "good" } []
     "https://app.example.com/cb?code=c1&state=evil" (by decide)
     (by
       intro v hv
       have he : pyLookup
           (callbackArgs "https://app.example.com/cb?code=c1&state=evil")
           "state" = some "evil" := by decide
       rw [he] at hv
       cases hv
       decide)⟩

/-- C6 amended: for every nonempty state mapping, each field whose key
is absent or falsy in the mapping keeps its existing in-memory value
(the empty mapping instead trips the base class's `assert state`). -/
theorem from_state_keeps_absent_or_falsy (s : FHIROAuth2Auth) (st : StateMap)
    (hne : st ≠ []) (s' : FHIROAuth2Auth) (hok : s.from_state st = .ok s') :
    (pyFalsy (pyGet st "app_id") → s'.app_id = s.app_id) ∧
    (pyFalsy (pyGet st "scope") → s'.scope = s.scope) ∧
    (pyFalsy (pyGet st "registration_uri") →
      s'._registration_uri = s._registration_uri) ∧
    (pyFalsy (pyGet st "authorize_uri") → s'._authorize_uri = s._authorize_uri) ∧
    (pyFalsy (pyGet st "redirect_uri") → s'._redirect_uri = s._redirect_uri) ∧
    (pyFalsy (pyGet st "token_uri") → s'._token_uri = s._token_uri) ∧
    (pyFalsy (pyGet st "auth_state") → s'.auth_state = s.auth_state) ∧
    (pyFalsy (pyGet st "access_token") → s'.access_token = s.access_token) ∧
    (pyFalsy (pyGet st "refresh_token") → s'.refresh_token = s.refresh_token) := by
  have hE : st.isEmpty = false := by
    cases st with
    | nil => exact absurd rfl hne
    | cons a l => rfl
  simp only [from_state, hE, Bool.false_eq_true, if_false, Except.ok.injEq] at hok
  subst hok
  exact ⟨fun hf => pickOr_falsy hf, fun hf => pickOr_falsy hf,
    fun hf => pickOr_falsy hf, fun hf => pickOr_falsy hf,
    fun hf => pickOr_falsy hf, fun hf => pickOr_falsy hf,
    fun hf => pickOr_falsy hf, fun hf => pickOr_falsy hf,
    fun hf => pickOr_falsy hf⟩

/-- C6 counterexample: importing the empty mapping does not tolerate the
missing keys but raises the assertion error. -/
theorem from_state_empty_cex :
    init.from_state [] = .error .assertionError := by decide

/-- C6 witness: a partial mapping (`scope` set, `refresh_token` falsy,
everything else absent) updates `scope` and keeps the live `app_id` and
`refresh_token`. -/
theorem from_state_keeps_witness :
    FHIROAuth2Auth.from_state
        { init with app_id := some "app0", refresh_token := some "keep" }
        [("scope", some "sc"), ("refresh_token", some "")] =
      .ok { init with app_id := some "app0", scope := some "sc", refresh_token := some "keep" } ∧
    ({ init with app_id := some "app0", scope := some "sc", refresh_token := some "keep" } : FHIROAuth2Auth).refresh_token =
      ({ init with app_id := some "app0", refresh_token := some "keep" } : FHIROAuth2Auth).refresh_token := by
  refine ⟨by decide, ?_⟩
  exact (from_state_keeps_absent_or_falsy
    { init with app_id := some "app0", refresh_token := some "keep" }
    [("scope", some "sc"), ("refresh_token", some "")] (by decide)
    { init with app_id := some "app0", scope := some "sc", refresh_token := some "keep" }
    (by decide)).2.2.2.2.2.2.2.2 (by decide)

/-- The `state` query parameter of a URL, read back the way
`handle_callback` would. -/
def getStateParam (u : String) : Option String :=
  pyLookup (callbackArgs u) "state"

/-- C7: with a configured authorize endpoint, no pending nonce and a
live server, reading `authorize_uri` twice returns the same URL (hence
the same `state` query parameter), mints the nonce only at the first
read, and fires `should_save_state` exactly once, at the first read. -/
theorem authorize_uri_nonce_stable (s : FHIROAuth2Auth)
    (base fresh fresh2 : String)
    (hcfg : s._authorize_uri = some base) (hpend : s.auth_state = none)
    (hsrv : s.has_server = true) :
    (authorize_uri fresh s).1.map getStateParam =
      (authorize_uri fresh2 (authorize_uri fresh s).2.1).1.map getStateParam ∧
    (authorize_uri fresh2 (authorize_uri fresh s).2.1).1 =
      (authorize_uri fresh s).1 ∧
    (authorize_uri fresh s).1.toOption.isSome = true ∧
    (authorize_uri fresh s).2.2 = [.should_save_state] ∧
    (authorize_uri fresh2 (authorize_uri fresh s).2.1).2.2 = [] := by
  simp [authorize_uri, _authorize_params, hcfg, hpend, hsrv, Except.toOption]

/-- C7 witness: two consecutive reads on a concrete configured strategy
agree, carry `state=n1`, and notify the server exactly once. -/
theorem authorize_uri_nonce_stable_witness :
    (authorize_uri "n1"
      { init with _authorize_uri := some "https://auth.example.com/authorize" }).1.map
        getStateParam = .ok (some "n1") ∧
    ((authorize_uri "n1"
        { init with _authorize_uri := some "https://auth.example.com/authorize" }).1.map
          getStateParam =
      (authorize_uri "n2"
        (authorize_uri "n1"
          { init with _authorize_uri := some "https://auth.example.com/authorize" }).2.1).1.map
            getStateParam ∧
     (authorize_uri "n2"
        (authorize_uri "n1"
          { init with _authorize_uri := some "https://auth.example.com/authorize" }).2.1).1 =
       (authorize_uri "n1"
         { init with _authorize_uri := some "https://auth.example.com/authorize" }).1 ∧
     (authorize_uri "n1"
       { init with _authorize_uri := some "https://auth.example.com/authorize" }).1.toOption.isSome = true ∧
     (authorize_uri "n1"
       { init with _authorize_uri := some "https://auth.example.com/authorize" }).2.2 =
       [.should_save_state] ∧
     (authorize_uri "n2"
        (authorize_uri "n1"
          { init with _authorize_uri := some "https://auth.example.com/authorize" }).2.1).2.2 = []) :=
  ⟨by decide,
   authorize_uri_nonce_stable
     { init with _authorize_uri := some "https://auth.example.com/authorize" }
     "https://auth.example.com/authorize" "n1" "n2" rfl rfl rfl⟩

/-- C10: reading `authorize_uri` on a strategy whose authorize endpoint
was never configured and whose nonce is not pending raises (the
`TypeError` out of the URL machinery), but only after the fresh nonce
has been stored and `should_save_state` fired — both side effects
persist. -/
theorem authorize_uri_unconfigured (s : FHIROAuth2Auth) (fresh : String)
    (hcfg : s._authorize_uri = none) (hpend : s.auth_state = none)
    (hsrv : s.has_server = true) :
    authorize_uri fresh s =
      (.error .typeError, { s with auth_state := some fresh },
       [.should_save_state]) := by
  simp [authorize_uri, _authorize_params, hcfg, hpend, hsrv]

/-- C10 witness: on a freshly constructed strategy the failing read
still mints `auth_state` and notifies the server. -/
theorem authorize_uri_unconfigured_witness :
    init._authorize_uri = none ∧ init.auth_state = none ∧
    authorize_uri "abc12345" init =
      (.error .typeError, { init with auth_state := some "abc12345" },
       [.should_save_state]) :=
  ⟨rfl, rfl, authorize_uri_unconfigured init "abc12345" rfl rfl rfl⟩

/-! Evaluation of `pyGet` on an exported state mapping. -/

theorem pyGet_state_scope (s : FHIROAuth2Auth) :
    pyGet s.state "scope" = s.scope := by
  simp [state, pyGet, pyLookup]

theorem pyGet_state_registration (s : FHIROAuth2Auth) :
    pyGet s.state "registration_uri" = s._registration_uri := by
  simp [state, pyGet, pyLookup]

theorem pyGet_state_authorize (s : FHIROAuth2Auth) :
    pyGet s.state "authorize_uri" = s._authorize_uri := by
  simp [state, pyGet, pyLookup]

theorem pyGet_state_redirect (s : FHIROAuth2Auth) :
    pyGet s.state "redirect_uri" = s._redirect_uri := by
  simp [state, pyGet, pyLookup]

theorem pyGet_state_token (s : FHIROAuth2Auth) :
    pyGet s.state "token_uri" = s._token_uri := by
  simp [state, pyGet, pyLookup]

theorem pyGet_state_access (s : FHIROAuth2Auth) :
    pyGet s.state "access_token" = s.access_token := by
  obtain ⟨hs, app, sc, reg, au, red, tok, ast, acc, ref⟩ := s
  cases ast <;> cases acc <;> cases ref <;> simp [state, pyGet, pyLookup]

theorem pyTruthy_pickOr_none (v : Option String) :
    pyTruthy (pickOr v none) = pyTruthy v := by
  cases v with
  | none => rfl
  | some w => by_cases hw : w = "" <;> simp [pickOr, pyTruthy, hw]

/-- C8: hydrating a fresh strategy from the exported state of a
previously authorized strategy reproduces `ready`, `scope` and every
endpoint field.  The non-emptiness hypotheses reflect an invariant of
the code: no operation of `auth.py` can ever set a configuration field
to the empty string (`from_state` filters falsy values, and nothing else
writes them). -/
theorem state_roundtrip (s : FHIROAuth2Auth) (t : String)
    (hauth : s.access_token = some t)
    (h1 : s.scope ≠ some "") (h2 : s._registration_uri ≠ some "")
    (h3 : s._authorize_uri ≠ some "") (h4 : s._redirect_uri ≠ some "")
    (h5 : s._token_uri ≠ some "")
    (s' : FHIROAuth2Auth) (hok : init.from_state s.state = .ok s') :
    s'.ready = s.ready ∧ s'.scope = s.scope ∧
    s'._registration_uri = s._registration_uri ∧
    s'._authorize_uri = s._authorize_uri ∧
    s'._redirect_uri = s._redirect_uri ∧
    s'._token_uri = s._token_uri := by
  have hE : s.state.isEmpty = false := by simp [state]
  simp only [from_state, hE, Bool.false_eq_true, if_false, Except.ok.injEq] at hok
  subst hok
  refine ⟨?_, ?_, ?_, ?_, ?_, ?_⟩
  · simp [ready, init, pyGet_state_access, pyTruthy_pickOr_none]
  · simp [init, pyGet_state_scope, pickOr_none h1]
  · simp [init, pyGet_state_registration, pickOr_none h2]
  · simp [init, pyGet_state_authorize, pickOr_none h3]
  · simp [init, pyGet_state_redirect, pickOr_none h4]
  · simp [init, pyGet_state_token, pickOr_none h5]

/-- C8 witness: a concrete authorized strategy exports and re-imports to
an equivalent strategy. -/
theorem state_roundtrip_witness :
    init.from_state
        (FHIROAuth2Auth.state { init with scope := some "sc", _authorize_uri := some "https://a", access_token := some "tok" }) =
      .ok { init with scope := some "sc", _authorize_uri := some "https://a", access_token := some "tok" } ∧
    (({ init with scope := some "sc", _authorize_uri := some "https://a", access_token := some "tok" } : FHIROAuth2Auth).ready =
       ({ init with scope := some "sc", _authorize_uri := some "https://a", access_token := some "tok" } : FHIROAuth2Auth).ready ∧
     ({ init with scope := some "sc", _authorize_uri := some "https://a", access_token := some "tok" } : FHIROAuth2Auth).scope =
       ({ init with scope := some "sc", _authorize_uri := some "https://a", access_token := some "tok" } : FHIROAuth2Auth).scope ∧
     ({ init with scope := some "sc", _authorize_uri := some "https://a", access_token := some "tok" } : FHIROAuth2Auth)._registration_uri =
       ({ init with scope := some "sc", _authorize_uri := some "https://a", access_token := some "tok" } : FHIROAuth2Auth)._registration_uri ∧
     ({ init with scope := some "sc", _authorize_uri := some "https://a", access_token := some "tok" } : FHIROAuth2Auth)._authorize_uri =
       ({ init with scope := some "sc", _authorize_uri := some "https://a", access_token := some "tok" } : FHIROAuth2Auth)._authorize_uri ∧
     ({ init with scope := some "sc", _authorize_uri := some "https://a", access_token := some "tok" } : FHIROAuth2Auth)._redirect_uri =
       ({ init with scope := some "sc", _authorize_uri := some "https://a", access_token := some "tok" } : FHIROAuth2Auth)._redirect_uri ∧
     ({ init with scope := some "sc", _authorize_uri := some "https://a", access_token := some "tok" } : FHIROAuth2Auth)._token_uri =
       ({ init with scope := some "sc", _authorize_uri := some "https://a", access_token := some "tok" } : FHIROAuth2Auth)._token_uri) :=
  ⟨by decide,
   state_roundtrip
     { init with scope := some "sc", _authorize_uri := some "https://a", access_token := some "tok" }
     "tok" rfl (by decide) (by decide) (by decide) (by decide) (by decide)
     { init with scope := some "sc", _authorize_uri := some "https://a", access_token := some "tok" }
     (by decide)⟩
